import Mathlib

/-!
Verification of the ChatSession component (src/unnamed/part_000) of
investo-glow: a chat UI that submits a prompt to a remote assistant
gateway, shows the conversation with an optimistic pending entry, and
records each finished exchange in a hosted database table.

The component is embedded shallowly: the React state hooks become the
fields of `ChatState`, and one complete run of the async `handleSubmit`
becomes a pure function of the initial state together with the outcomes
of the two external calls (the gateway fetch and the database insert).
-/

namespace InvestoGlow

/-- Characters removed by JavaScript `String.prototype.trim`: ASCII
whitespace, vertical tab, form feed, NBSP, the line and paragraph
separators and the BOM. -/
def isJsWhitespace (c : Char) : Bool :=
  c = ' ' ∨ c = '\t' ∨ c = '\n' ∨ c = '\r' ∨ c = '\x0b' ∨ c = '\x0c' ∨
  c = '\u00A0' ∨ c = '\u2028' ∨ c = '\u2029' ∨ c = '\uFEFF'

/-- JavaScript `String.prototype.trim`, as applied to `promptText` in
`handleSubmit` (lines 80, 85, 90, 93, 102): strips leading and trailing
whitespace. -/
def jsTrim (s : String) : String :=
  ⟨((s.data.dropWhile isJsWhitespace).reverse.dropWhile isJsWhitespace).reverse⟩

/-- `type AssistantType = 'general' | 'financial'` (line 17). -/
inductive AssistantType
  | general
  | financial
deriving DecidableEq, Repr

/-- `type Message = { query: string; response: string }` (line 18). -/
structure Message where
  query : String
  response : String
deriving DecidableEq, Repr

/-- The identity supplied by the auth context (`const { user } = useAuth()`,
line 33); only `user.id` is consumed, in the database insert. -/
structure User where
  id : String
deriving DecidableEq, Repr

/-- The React state of the `Chat` component (lines 29-32): the draft input
`query`, the busy flag `loading`, the conversation `messages`, and the
selected `assistantType`. -/
structure ChatState where
  query : String
  loading : Bool
  messages : List Message
  assistantType : AssistantType
deriving DecidableEq, Repr

/-- Outcome of the `fetch` inside `callChatAPI` (lines 59-71).
`ok r` is a 2xx response whose parsed body has `response` field `r`
(`none` models a missing or null field); `httpError s` is a non-2xx
status `s` (`response.ok` false, line 67); `transportError` is a
rejected fetch or a body that fails to parse as JSON. -/
inductive GatewayResult
  | ok (response : Option String)
  | httpError (status : Nat)
  | transportError
deriving DecidableEq, Repr

/-- Returned when the 2xx body has a falsy `response` field (line 72). -/
def emptyResponseFallback : String := "Sorry, I couldn\x27t process your request."

/-- Returned by the catch clause of `callChatAPI` (line 75). -/
def apiErrorFallback : String :=
  "Sorry, there was an error connecting to the assistant. Please try again later."

/-- The try block of `callChatAPI` (lines 54-72): a non-2xx status throws
`API error: <status>` (line 68), a transport failure is the rejection
itself, and on a 2xx body the JS expression `data.response || fallback`
returns the fallback when the field is missing, null or the empty string
(all falsy). -/
def callChatAPIBody : GatewayResult → Except String String
  | .ok r =>
      .ok (match r with
        | some s => if s = "" then emptyResponseFallback else s
        | none => emptyResponseFallback)
  | .httpError status => .error ("API error: " ++ toString status)
  | .transportError => .error "fetch failed"

/-- `callChatAPI` (lines 53-77): the try block with its catch clause,
which logs the error and returns the fixed connection-failure string. -/
def callChatAPI (g : GatewayResult) : String :=
  match callChatAPIBody g with
  | .ok s => s
  | .error _ => apiErrorFallback

/-- Endpoint selection inside `callChatAPI` (lines 55-57). -/
def endpoint : AssistantType → String
  | .general => "https://investo-server-dlii.onrender.com/chat"
  | .financial => "https://investo-server-dlii.onrender.com/agent"

/-- The pending placeholder written into the optimistic entry (line 85)
and recognised by the renderer (line 187). -/
def pendingSentinel : String := "..."

/-- `handleAssistantChange` (lines 42-44): `setAssistantType(value)`. -/
def handleAssistantChange (s : ChatState) (value : AssistantType) : ChatState :=
  { s with assistantType := value }

/-- The intermediate state after lines 82-87: `loading` set, the pending
exchange appended, the draft cleared; held while the gateway call is
awaited. -/
def pendingState (s : ChatState) (promptText : String) : ChatState :=
  { s with
    loading := true
    query := ""
    messages := s.messages ++ [{ query := jsTrim promptText, response := pendingSentinel }] }

/-- Result of one settled run of `handleSubmit`: the final component
state and the number of error toasts raised (line 114). -/
structure SubmitResult where
  state : ChatState
  toasts : Nat
deriving DecidableEq, Repr

/-- One complete run of `handleSubmit` (lines 79-126), as a function of
the initial state, the auth user, the argument `promptText`, the gateway
outcome and whether the database insert succeeds.

Line 80 guards: empty trimmed prompt, missing user or `loading` already
true return without any effect. Otherwise the try block appends the
pending entry and clears the draft (lines 85-87), awaits the gateway
(line 90; `callChatAPI` never rejects), rebuilds the conversation from
the captured `messages` snapshot with the resolved exchange (line 93),
and performs the insert (lines 97-106). An insert error is thrown
(line 108) and caught: one destructive toast is raised (lines 114-118)
and `setMessages(messages)` restores the pre-call snapshot (line 120).
The finally clause clears `loading` (line 122). -/
def handleSubmit (s : ChatState) (user : Option User) (promptText : String)
    (gateway : GatewayResult) (insertOk : Bool) : SubmitResult :=
  if jsTrim promptText = "" ∨ user.isNone ∨ s.loading then
    { state := s, toasts := 0 }
  else
    let aiResponse := callChatAPI gateway
    let finalMessages := s.messages ++ [{ query := jsTrim promptText, response := aiResponse }]
    if insertOk then
      { state := { s with query := "", loading := false, messages := finalMessages }
        toasts := 0 }
    else
      { state := { s with query := "", loading := false, messages := s.messages }
        toasts := 1 }

/-- The first preset prompt (line 21), used by the spec scenarios. -/
def btcPrompt : String := "What\x27s the current market sentiment for Bitcoin?"

/-- C1: the claim says a Conversation Log write failure after a successful
gateway call leaves the finalized Exchange in place (length = pre-call
length + 1) with one error toast. The code disagrees: the catch clause at
line 120 runs `setMessages(messages)`, the pre-call snapshot, so the
finalized Exchange is removed. At the concrete failing input (empty
conversation, gateway answers Bullish, insert fails) the settled
conversation is empty, not of length 1, and one toast is raised. The
catch clause is only reachable from the insert (line 108), where no
pending placeholder remains, so its own comment (line 119, remove the
pending message) no longer describes what it removes: the code, not the
claim, is at fault. -/
theorem c1_log_failure_reverts_exchange :
    handleSubmit ⟨"", false, [], .general⟩ (some ⟨"user-1"⟩) "hello"
        (.ok (some "Bullish")) false
      = { state := ⟨"", false, [], .general⟩, toasts := 1 } := by decide

/-- C2: for every gateway outcome that is not a 2xx response (non-2xx
HTTP status or transport exception), the try block of `callChatAPI`
throws, yet `callChatAPI` itself returns the fixed connection-failure
fallback string instead of propagating the failure. -/
theorem c2_gateway_failure_yields_fallback (g : GatewayResult)
    (h : ∀ r : Option String, g ≠ .ok r) :
    (∃ e, callChatAPIBody g = .error e) ∧ callChatAPI g = apiErrorFallback := by
  cases g with
  | ok r => exact absurd rfl (h r)
  | httpError status => exact ⟨⟨_, rfl⟩, rfl⟩
  | transportError => exact ⟨⟨_, rfl⟩, rfl⟩

/-- C2 witness: `c2_gateway_failure_yields_fallback` applied at a
concrete HTTP 500 outcome. -/
theorem c2_witness :
    (∃ e, callChatAPIBody (.httpError 500) = .error e)
    ∧ callChatAPI (.httpError 500) = apiErrorFallback :=
  c2_gateway_failure_yields_fallback (.httpError 500)
    (fun _ h => GatewayResult.noConfusion h)

/-- C3 counterexample: with an empty conversation, a valid prompt and a
gateway HTTP 500, the settled conversation is NOT the empty list with
one toast: `callChatAPI` swallows the 500 into the connection-failure
fallback string, so the submission proceeds as a success. -/
theorem c3_counterexample :
    ¬((handleSubmit ⟨btcPrompt, false, [], .general⟩ (some ⟨"user-1"⟩) btcPrompt
          (.httpError 500) true).state.messages = []
      ∧ (handleSubmit ⟨btcPrompt, false, [], .general⟩ (some ⟨"user-1"⟩) btcPrompt
          (.httpError 500) true).toasts = 1) := by decide

/-- C3 amended: with an empty conversation, a valid prompt, a gateway
HTTP 500 and a successful insert, the settled conversation holds exactly
one Exchange whose response is the connection-failure fallback string,
no error toast is raised, busy is false and the draft input is empty. -/
theorem c3_gateway_500_masked :
    handleSubmit ⟨btcPrompt, false, [], .general⟩ (some ⟨"user-2"⟩) btcPrompt
        (.httpError 500) true
      = { state := ⟨"", false, [⟨btcPrompt, apiErrorFallback⟩], .general⟩, toasts := 0 } := by
  decide

/-- C4: whenever a precondition of `handleSubmit` fails (prompt empty
after trimming, no user, or already loading), the call is a no-op: the
whole state (conversation contents, draft and busy flag) is returned
unchanged and no toast is raised. -/
theorem c4_precondition_noop (s : ChatState) (user : Option User)
    (p : String) (g : GatewayResult) (ins : Bool)
    (h : jsTrim p = "" ∨ user = none ∨ s.loading = true) :
    handleSubmit s user p g ins = { state := s, toasts := 0 } := by
  have hc : jsTrim p = "" ∨ user.isNone ∨ s.loading := by
    rcases h with h | h | h
    · exact Or.inl h
    · exact Or.inr (Or.inl (by simp [h]))
    · exact Or.inr (Or.inr h)
  simp only [handleSubmit, if_pos hc]

/-- C4 witness: `c4_precondition_noop` applied at a concrete call with
no user available. -/
theorem c4_witness :
    handleSubmit ⟨"draft", false, [⟨"q0", "r0"⟩], .financial⟩ none "hello" .transportError true
      = { state := ⟨"draft", false, [⟨"q0", "r0"⟩], .financial⟩, toasts := 0 } :=
  c4_precondition_noop _ _ _ _ _ (Or.inr (Or.inl rfl))

/-- C5: the claim says every accepted submission adds exactly one
finalized Exchange once settled, including after a persistence failure.
The code disagrees on the persistence-failure path: at the concrete
failing input (one prior Exchange, gateway succeeds, insert fails) the
settled conversation still has length 1, i.e. zero Exchanges were
added, because the catch clause restores the pre-call snapshot
(line 120). As for C1, that clause is reachable only from the insert
failure, where the comment at line 119 no longer matches its effect. -/
theorem c5_persistence_failure_adds_zero :
    (handleSubmit ⟨"", false, [⟨"q0", "r0"⟩], .general⟩ (some ⟨"user-3"⟩) "next question"
        (.ok (some "fine")) false).state.messages.length = 1 := by decide

/-- C6: the happy-path scenario. From an empty conversation, submitting
the Bitcoin preset prompt in general mode with a user available, the
gateway answering Bullish and the insert succeeding, the settled state
holds exactly the one resolved Exchange, busy is false and the draft
input is the empty string. -/
theorem c6_happy_path_scenario :
    handleSubmit ⟨btcPrompt, false, [], .general⟩ (some ⟨"user-4"⟩) btcPrompt
        (.ok (some "Bullish")) true
      = { state := { query := "", loading := false,
                     messages := [{ query := btcPrompt, response := "Bullish" }],
                     assistantType := .general },
          toasts := 0 } := by decide

/-- C7: `handleAssistantChange` changes only the assistant-mode field:
the draft, the busy flag and every existing Exchange (query and response
alike) are exactly those of the input state, whatever that state is,
including states with a submission in flight (loading true). Being a
pure function of the state, it performs no side effects. -/
theorem c7_setMode_frame (s : ChatState) (v : AssistantType) :
    handleAssistantChange s v
      = { query := s.query, loading := s.loading, messages := s.messages,
          assistantType := v } := rfl

/-- C8 counterexample: if the gateway body resolves to the literal
string used as the pending placeholder, the settled state (busy false)
holds an Exchange whose response is the pending placeholder, so the
claim as stated fails: the code replaces the pending entry with the
gateway text without guarding against that text being the placeholder
itself. -/
theorem c8_counterexample :
    (handleSubmit ⟨"", false, [], .general⟩ (some ⟨"user-5"⟩) "hello"
        (.ok (some "...")) true).state.loading = false
    ∧ ((handleSubmit ⟨"", false, [], .general⟩ (some ⟨"user-5"⟩) "hello"
        (.ok (some "...")) true).state.messages.any
          fun m => m.response = pendingSentinel) = true := by decide

/-- C8 amended: from any non-busy state whose conversation has no
pending-placeholder response, and provided the resolved gateway text is
not itself the placeholder string, every settled run of `handleSubmit`
ends with busy false and no Exchange carrying the pending placeholder:
the optimistic entry is replaced by exactly one resolved Exchange or
removed before the busy flag clears. -/
theorem c8_no_pending_when_settled (s : ChatState) (u : Option User) (p : String)
    (g : GatewayResult) (ins : Bool)
    (hl : s.loading = false)
    (hs : ∀ m ∈ s.messages, m.response ≠ pendingSentinel)
    (hg : callChatAPI g ≠ pendingSentinel) :
    (handleSubmit s u p g ins).state.loading = false
    ∧ ∀ m ∈ (handleSubmit s u p g ins).state.messages, m.response ≠ pendingSentinel := by
  by_cases hc : jsTrim p = "" ∨ u.isNone ∨ s.loading
  · simp only [handleSubmit, if_pos hc]
    exact ⟨hl, hs⟩
  · simp only [handleSubmit, if_neg hc]
    cases ins with
    | true =>
        refine ⟨rfl, ?_⟩
        intro m hm
        have hm2 : m ∈ s.messages ++
            [({ query := jsTrim p, response := callChatAPI g } : Message)] := hm
        rcases List.mem_append.mp hm2 with h1 | h1
        · exact hs m h1
        · rw [List.mem_singleton] at h1
          rw [h1]
          exact hg
    | false => exact ⟨rfl, hs⟩

/-- C8 witness: `c8_no_pending_when_settled` applied at a concrete
successful submission from the empty conversation. -/
theorem c8_witness :
    (handleSubmit ⟨"", false, [], .general⟩ (some ⟨"user-6"⟩) "hello"
        (.ok (some "Bullish")) true).state.loading = false
    ∧ ∀ m ∈ (handleSubmit ⟨"", false, [], .general⟩ (some ⟨"user-6"⟩) "hello"
        (.ok (some "Bullish")) true).state.messages, m.response ≠ pendingSentinel :=
  c8_no_pending_when_settled _ _ _ _ _ rfl (by simp) (by decide)

/-- C9: on a 2xx response whose body has a missing, null or empty
`response` field, `callChatAPI` returns the distinct
could-not-process fallback string, which is neither the empty string
nor the connection-failure string. -/
theorem c9_falsy_response_fallback (r : Option String)
    (h : r = none ∨ r = some "") :
    callChatAPI (.ok r) = emptyResponseFallback
    ∧ emptyResponseFallback ≠ ""
    ∧ emptyResponseFallback ≠ apiErrorFallback := by
  rcases h with h | h <;> subst h <;> exact ⟨rfl, by decide, by decide⟩

/-- C9 witness: `c9_falsy_response_fallback` applied at a 2xx body with
a missing `response` field. -/
theorem c9_witness :
    callChatAPI (.ok none) = emptyResponseFallback
    ∧ emptyResponseFallback ≠ ""
    ∧ emptyResponseFallback ≠ apiErrorFallback :=
  c9_falsy_response_fallback none (Or.inl rfl)

/-- C10: on every accepted submission that ends in the rollback path
(insert fails), the draft input is the empty string in the settled
state — it was cleared at acceptance (line 87) and the catch clause
never restores it — and exactly one error toast is raised. -/
theorem c10_draft_not_restored (s : ChatState) (u : User) (p : String) (g : GatewayResult)
    (hp : jsTrim p ≠ "") (hl : s.loading = false) :
    (handleSubmit s (some u) p g false).state.query = ""
    ∧ (handleSubmit s (some u) p g false).toasts = 1 := by
  have hc : ¬(jsTrim p = "" ∨ (some u : Option User).isNone ∨ s.loading) := by
    simp [hp, hl]
  simp only [handleSubmit, if_neg hc]
  exact ⟨rfl, rfl⟩

/-- C10 witness: `c10_draft_not_restored` applied at a concrete failing
submission whose draft held the submitted text. -/
theorem c10_witness :
    (handleSubmit ⟨"hello", false, [], .general⟩ (some ⟨"user-7"⟩) "hello"
        (.ok (some "x")) false).state.query = ""
    ∧ (handleSubmit ⟨"hello", false, [], .general⟩ (some ⟨"user-7"⟩) "hello"
        (.ok (some "x")) false).toasts = 1 :=
  c10_draft_not_restored _ _ _ _ (by decide) rfl

end InvestoGlow
